import Mathlib

/-!
Shallow embedding of the bucket-manager storage layer and HTTP route
handlers, together with theorems checking the natural-language
specification against the code.

Sources embedded:
- src/lib/r2-client.ts        (listObjects, deleteObjects, deleteFolder,
                               createFolder, getMimeType, createR2Client)
- src/lib/s3-client.ts        (listObjects)
- src/lib/bucket-config.ts    (loadBucketConfigs)
- src/app/api/buckets/route.ts                      (GET /api/buckets)
- src/app/api/buckets/[bucketId]/objects/route.ts   (GET, POST)
- src/app/api/buckets/[bucketId]/objects/[key]/route.ts (GET, DELETE)
- src/app/api/buckets/[bucketId]/folders/route.ts   (POST, DELETE)
- src/app/api/objects/delete-batch/route.ts         (POST)

JavaScript string-valued fields that may be `undefined` are modelled as
`Option String`; JavaScript truthiness on strings (where the empty string
is falsy) is modelled explicitly at each use site.  Dates are modelled by
their millisecond timestamps (`Nat`); the ambient current time
(`new Date()`) is passed in as an explicit `now : Nat` parameter.
-/

/-- Semantics of JavaScript `s.replace(pat, repl)` with a string pattern:
only the first occurrence of `pat` is replaced.  Helper on character
lists: index of the first occurrence of `pat` in `s`, if any. -/
def findSub (pat : List Char) : List Char → Option Nat
  | [] => if pat = [] then some 0 else none
  | c :: rest =>
    if pat.isPrefixOf (c :: rest) then some 0
    else (findSub pat rest).map (· + 1)

/-- JavaScript `s.replace(pat, repl)` for a string pattern: replaces the
first occurrence only (`String.replace` in Lean replaces all). -/
def jsReplaceFirst (s pat repl : String) : String :=
  match findSub pat.data s.data with
  | none => s
  | some i => ⟨s.data.take i ++ repl.data ++ s.data.drop (i + pat.data.length)⟩

/-- JavaScript `a || b` on strings: the empty string is falsy. -/
def jsOr (a b : String) : String := if a = "" then b else a

/-- JavaScript `etag.replace(/"/g, "")`: removes every double-quote
character. -/
def stripQuotes (s : String) : String :=
  ⟨s.data.filter (fun c => c ≠ '\"')⟩

/-- JavaScript `arr.pop()` on the (never empty) result of `split`,
with `|| dflt` applied to the result. -/
def jsLastOr (l : List String) (dflt : String) : String :=
  jsOr ((l.getLast?).getD "") dflt

/-- JavaScript `s.split(sep)` on character lists: always returns at
least one (possibly empty) segment. -/
def splitChar (sep : Char) : List Char → List (List Char)
  | [] => [[]]
  | c :: rest =>
    let r := splitChar sep rest
    if c = sep then [] :: r
    else
      match r with
      | [] => [[c]]
      | h :: t => (c :: h) :: t

/-- JavaScript `s.split(sep)` for a one-character separator. -/
def jsSplit (s : String) (sep : Char) : List String :=
  (splitChar sep s.data).map (fun l => ⟨l⟩)

/-- JavaScript `s.endsWith("/")`: the last character is a slash. -/
def jsEndsWithSlash (s : String) : Bool :=
  s.data.getLast? == some '/'

/-- ASCII lowering of one character (`toLowerCase` on the ASCII
extensions the MIME table contains). -/
def jsToLowerChar (c : Char) : Char :=
  if 'A' ≤ c && c ≤ 'Z' then Char.ofNat (c.toNat + 32) else c

/-- JavaScript `s.toLowerCase()` (ASCII). -/
def jsToLower (s : String) : String :=
  ⟨s.data.map jsToLowerChar⟩

/-- One entry of an SDK `ListObjectsV2` response `Contents` array.
`Key`, `ETag`, `LastModified` and `Size` are all optional in the SDK
types; `LastModified` is a millisecond timestamp. -/
structure SdkObject where
  key : Option String
  eTag : Option String
  lastModifiedMs : Option Nat
  size : Option Nat
deriving DecidableEq, Repr

/-- An SDK `ListObjectsV2` response as consumed by the adapters:
`CommonPrefixes` (each entry an object with an optional `Prefix`),
`Contents`, `NextContinuationToken`, `IsTruncated`, `KeyCount`. -/
structure ListResponse where
  commonPrefixes : Option (List (Option String))
  contents : Option (List SdkObject)
  nextContinuationToken : Option String
  isTruncated : Option Bool
  keyCount : Option Nat
deriving DecidableEq, Repr

/-- The parameters the adapters place on a `ListObjectsV2Command`.
`none` models an omitted parameter. -/
structure ListRequest where
  bucket : String
  maxKeys : Option Nat
  continuationToken : Option String
  pfx : Option String
  delimiter : Option String
deriving DecidableEq, Repr

/-- Bucket descriptor from src/lib/bucket-config.ts.  String fields that
JavaScript may leave `undefined` and that the loader checks for
truthiness are plain `String`s with `""` standing for absent; `endpoint`,
`region` and `publicUrl` are genuinely optional. -/
structure BucketConfig where
  id : String
  name : String
  displayName : String
  provider : String
  region : Option String
  endpoint : Option String
  publicUrl : Option String
  accessKeyId : String
  secretAccessKey : String
deriving DecidableEq, Repr

/-- MIME-type table from `getMimeType` (identical in r2-client.ts and
s3-client.ts). -/
def getMimeType (ext : String) : String :=
  match ext with
  | "jpg" => "image/jpeg"
  | "jpeg" => "image/jpeg"
  | "png" => "image/png"
  | "gif" => "image/gif"
  | "webp" => "image/webp"
  | "svg" => "image/svg+xml"
  | "pdf" => "application/pdf"
  | "doc" => "application/msword"
  | "docx" => "application/vnd.openxmlformats-officedocument.wordprocessingml.document"
  | "xls" => "application/vnd.ms-excel"
  | "xlsx" => "application/vnd.openxmlformats-officedocument.spreadsheetml.sheet"
  | "ppt" => "application/vnd.ms-powerpoint"
  | "pptx" => "application/vnd.openxmlformats-officedocument.presentationml.presentation"
  | "txt" => "text/plain"
  | "html" => "text/html"
  | "css" => "text/css"
  | "js" => "application/javascript"
  | "json" => "application/json"
  | "xml" => "application/xml"
  | "zip" => "application/zip"
  | "rar" => "application/x-rar-compressed"
  | "tar" => "application/x-tar"
  | "7z" => "application/x-7z-compressed"
  | "mp3" => "audio/mpeg"
  | "wav" => "audio/wav"
  | "mp4" => "video/mp4"
  | "mov" => "video/quicktime"
  | "avi" => "video/x-msvideo"
  | "webm" => "video/webm"
  | _ => "application/octet-stream"

namespace R2

/-- `R2Object` from src/lib/r2-client.ts. -/
structure R2Object where
  id : String
  name : String
  path : String
  type : String
  size : Nat
  lastModifiedMs : Nat
  thumbnailUrl : Option String
  isFolder : Bool
deriving DecidableEq, Repr

/-- `PaginatedResult` from src/lib/r2-client.ts. -/
structure PaginatedResult where
  objects : List R2Object
  nextContinuationToken : Option String
  isTruncated : Bool
  totalCount : Option Nat
deriving DecidableEq, Repr

/-- The folder pseudo-object `listObjects` pushes for one
`CommonPrefixes` entry, or `none` when the derived display name is empty
(the code skips those).  The display name is the common prefix with the
first occurrence of the listing prefix removed and then the first "/"
removed. -/
def mkFolder (pfx : String) (now : Nat) (prefixObj : Option String) :
    Option R2Object :=
  let folderPath := prefixObj.getD ""
  let folderName := jsReplaceFirst (jsReplaceFirst folderPath pfx "") "/" ""
  if folderName = "" then
    none
  else
    some ⟨"folder-" ++ folderPath, folderName, folderPath, "folder", 0, now,
      none, true⟩

/-- The `id` field `listObjects` computes for a file entry:
`Key + "-" + (ETag without quotes || LastModified millis || "")`. -/
def fileId (item : SdkObject) : String :=
  let fromDate :=
    match item.lastModifiedMs with
    | some t => jsOr (toString t) ""
    | none => ""
  (item.key.getD "") ++ "-" ++
    (match item.eTag with
     | some e => jsOr (stripQuotes e) fromDate
     | none => fromDate)

/-- The file object `listObjects` pushes for one `Contents` entry, or
`none` when the key ends with "/" (folder markers are skipped). -/
def mkFile (now : Nat) (item : SdkObject) : Option R2Object :=
  let fullPath := item.key.getD ""
  let fileName := jsLastOr (jsSplit fullPath '/') "unknown"
  if jsEndsWithSlash fullPath then none
  else
    let extension :=
      jsOr (jsToLower ((jsSplit fileName '.').getLast?.getD "")) ""
    some ⟨fileId item, fileName, fullPath, getMimeType extension,
      item.size.getD 0, item.lastModifiedMs.getD now, none, false⟩

/-- `objects.push(...)` guarded by a skip: append when the entry was
kept, otherwise leave the accumulator unchanged. -/
def pushOpt {β : Type} (acc : List β) (o : Option β) : List β :=
  match o with
  | some b => acc ++ [b]
  | none => acc

/-- Response processing of `listObjects` in src/lib/r2-client.ts: the
`objects` array is built by pushing folder entries from
`CommonPrefixes`, then file entries from `Contents`; token, truncation
flag and key count are passed through. -/
def processResponse (pfx : String) (now : Nat) (resp : ListResponse) :
    PaginatedResult :=
  let afterFolders :=
    (resp.commonPrefixes.getD []).foldl
      (fun acc p => pushOpt acc (mkFolder pfx now p)) []
  let objects :=
    (resp.contents.getD []).foldl
      (fun acc item => pushOpt acc (mkFile now item)) afterFolders
  ⟨objects, resp.nextContinuationToken, resp.isTruncated.getD false,
    resp.keyCount⟩

/-- `listObjects` from src/lib/r2-client.ts, as the pair of the
`ListObjectsV2Command` it sends (delimiter "/", scoped to the prefix)
and the result computed from the provider response. -/
def listObjects (config : BucketConfig) (maxKeys : Nat)
    (continuationToken : Option String) (pfx : String)
    (resp : ListResponse) (now : Nat) : ListRequest × PaginatedResult :=
  (⟨config.name, some maxKeys, continuationToken, some pfx, some "/"⟩,
   processResponse pfx now resp)

end R2

namespace S3

/-- `S3Object` from src/lib/s3-client.ts: note there is no `path` and no
`isFolder` field. -/
structure S3Object where
  id : String
  name : String
  type : String
  size : Nat
  lastModifiedMs : Nat
  thumbnailUrl : Option String
deriving DecidableEq, Repr

/-- `PaginatedResult` from src/lib/s3-client.ts. -/
structure PaginatedResult where
  objects : List S3Object
  nextContinuationToken : Option String
  isTruncated : Bool
  totalCount : Option Nat
deriving DecidableEq, Repr

/-- The file object s3-client `listObjects` builds for one `Contents`
entry: every entry is mapped (no folder-marker skipping), the name is
the full key (`item.Key || "unknown"`). -/
def mkFile (now : Nat) (item : SdkObject) : S3Object :=
  let extension :=
    jsOr (jsToLower ((jsSplit (item.key.getD "") '.').getLast?.getD "")) ""
  ⟨R2.fileId item, jsOr (item.key.getD "") "unknown", getMimeType extension,
    item.size.getD 0, item.lastModifiedMs.getD now, none⟩

/-- Response processing of `listObjects` in src/lib/s3-client.ts: when
`Contents` is absent it returns an empty result (dropping any token or
key count); otherwise every content entry becomes a file object. -/
def processResponse (now : Nat) (resp : ListResponse) : PaginatedResult :=
  match resp.contents with
  | none => ⟨[], none, false, none⟩
  | some items =>
    ⟨items.map (mkFile now), resp.nextContinuationToken,
      resp.isTruncated.getD false, resp.keyCount⟩

/-- `listObjects` from src/lib/s3-client.ts, as the pair of the
`ListObjectsV2Command` it sends (no delimiter, no prefix parameter at
all) and the result computed from the provider response. -/
def listObjects (config : BucketConfig) (maxKeys : Nat)
    (continuationToken : Option String) (resp : ListResponse)
    (now : Nat) : ListRequest × PaginatedResult :=
  (⟨config.name, some maxKeys, continuationToken, none, none⟩,
   processResponse now resp)

end S3

namespace R2

/-- One page of the paginated listing `deleteFolder` drains: its
`Contents` (absent, or a list of entries with optional keys) and its
`NextContinuationToken`. -/
structure Page where
  contents : Option (List SdkObject)
  nextContinuationToken : Option String
deriving DecidableEq, Repr

/-- The keys `deleteFolder` collects from one page:
`listResponse.Contents.map(obj => obj.Key).filter(key => key)` — absent
keys and empty-string keys are dropped by JavaScript truthiness. -/
def pageKeys (p : Page) : List String :=
  ((p.contents.getD []).map (·.key)).filterMap
    (fun k =>
      match k with
      | some s => if s = "" then none else some s
      | none => none)

/-- The do/while listing loop of `deleteFolder`: page `i` of the oracle
is the response to the `i`-th list request; after each page the loop
continues exactly when that page carried a `NextContinuationToken`. -/
def collectKeys : List Page → List String
  | [] => []
  | p :: rest =>
    pageKeys p ++
      (match p.nextContinuationToken with
       | some _ => collectKeys rest
       | none => [])

/-- The oracle presents the pages the loop actually consumes: every page
except the last carries a continuation token (so the loop drains them
all). -/
def drainsAll : List Page → Bool
  | [] => true
  | [_] => true
  | p :: q :: rest => p.nextContinuationToken.isSome && drainsAll (q :: rest)

/-- The batching loop of `deleteFolder`:
`for (i = 0; i < allKeys.length; i += 1000) slice(i, i + 1000)`. -/
def chunks1000 (l : List String) : List (List String) :=
  if l = [] then [] else l.take 1000 :: chunks1000 (l.drop 1000)
termination_by l.length
decreasing_by
  rename_i h
  have hl : 0 < l.length := List.length_pos.mpr h
  simp only [List.length_drop]
  omega

/-- Path normalization shared by `deleteFolder` and `createFolder`:
append "/" unless the path already ends with it. -/
def normalizePath (folderPath : String) : String :=
  if jsEndsWithSlash folderPath then folderPath else folderPath ++ "/"

/-- Observable outcome of one `deleteFolder` run: the prefix used for
the listing requests, the batches passed to successive `deleteObjects`
calls, and the returned `deletedCount`. -/
structure DeleteFolderRun where
  listPrefix : String
  batches : List (List String)
  deletedCount : Nat
deriving DecidableEq, Repr

/-- `deleteFolder` from src/lib/r2-client.ts over a page oracle:
normalize the path, drain the listing, fall back to the folder marker
when no keys were found, delete in batches of up to 1000, and return
the number of keys deleted. -/
def deleteFolder (folderPath : String) (pages : List Page) :
    DeleteFolderRun :=
  let normalizedPath := normalizePath folderPath
  let collected := collectKeys pages
  let allKeys := if collected = [] then [normalizedPath] else collected
  ⟨normalizedPath, chunks1000 allKeys, allKeys.length⟩

/-- `createFolder` from src/lib/r2-client.ts: the key of the zero-byte
marker object it uploads. -/
def createFolderKey (folderPath : String) : String :=
  normalizePath folderPath

/-- `createR2Client` from src/lib/r2-client.ts: fails when the config
carries no endpoint (JavaScript truthiness: absent or empty). -/
def createR2Client (config : BucketConfig) : Except String BucketConfig :=
  if config.endpoint.getD "" = "" then
    Except.error ("R2 bucket " ++ config.name ++
      " is missing endpoint configuration")
  else
    Except.ok config

end R2

/-- The parsed content of config/buckets.json as `loadBucketConfigs`
sees it after `JSON.parse`: the `buckets` member may be absent (or not
an array, likewise modelled as `none`). -/
structure ConfigFile where
  buckets : Option (List BucketConfig)
deriving DecidableEq, Repr

/-- The required-field check of `loadBucketConfigs`:
`!bucket.id || !bucket.name || !bucket.provider || !bucket.accessKeyId
|| !bucket.secretAccessKey` (JavaScript truthiness on strings). -/
def missingRequired (b : BucketConfig) : Bool :=
  b.id = "" || b.name = "" || b.provider = "" || b.accessKeyId = "" ||
    b.secretAccessKey = ""

/-- The R2 endpoint check of `loadBucketConfigs`:
`bucket.provider === "r2" && !bucket.endpoint`. -/
def r2MissingEndpoint (b : BucketConfig) : Bool :=
  b.provider = "r2" && b.endpoint.getD "" = ""

/-- The `forEach` validation loop of `loadBucketConfigs`: throws at the
first invalid bucket. -/
def validateBuckets : List BucketConfig → Except String Unit
  | [] => Except.ok ()
  | b :: rest =>
    if missingRequired b then
      Except.error "Invalid bucket configuration. Missing required fields: id, name, provider, accessKeyId, secretAccessKey"
    else if r2MissingEndpoint b then
      Except.error ("R2 bucket " ++ b.name ++
        " is missing required endpoint field")
    else
      validateBuckets rest

/-- `loadBucketConfigs` from src/lib/bucket-config.ts over the parsed
configuration file (`none` models a missing config/buckets.json):
either the whole validated list or an error — never a partial list. -/
def loadBucketConfigs (file : Option ConfigFile) :
    Except String (List BucketConfig) :=
  match file with
  | none =>
    Except.error "No buckets.json configuration file found. Please create config/buckets.json with your bucket configurations."
  | some f =>
    match f.buckets with
    | none =>
      Except.error "Invalid buckets.json format. Expected an object with a buckets array."
    | some bs =>
      match validateBuckets bs with
      | Except.ok _ => Except.ok bs
      | Except.error e => Except.error e

/-- A storage operation performed by a route handler through the
storage factory / provider adapters. -/
inductive StorageOp where
  | listObjectsOp
  | getObjectOp (key : String)
  | presignOp (key : String)
  | uploadOp (key : String) (contentType : String)
  | deleteObjectOp (key : String)
  | deleteObjectsOp (keys : List String)
  | createFolderOp (path : String)
deriving DecidableEq, Repr

/-- Observable outcome of one route handler invocation: HTTP status,
the string-valued fields of the JSON body (success bodies are modelled
up to the fields the specification mentions), and the storage
operations performed, in order. -/
structure RouteResult where
  status : Nat
  body : List (String × String)
  ops : List StorageOp
deriving DecidableEq, Repr

/-- The bucket lookup every bucket-scoped route performs:
`bucketConfigs.find((c) => c.id === bucketId)`. -/
def findBucket (cfgs : List BucketConfig) (bucketId : String) :
    Option BucketConfig :=
  cfgs.find? (fun c => c.id == bucketId)

/-- A multipart form file as the upload route reads it from
`formData.get("file")`. -/
structure FormFile where
  name : String
  size : Nat
  contentType : String
deriving DecidableEq, Repr

/-- GET /api/buckets/[bucketId]/objects: resolve the bucket (404 when
unknown, before any storage call), then list objects. -/
def objectsGET (cfgRes : Except String (List BucketConfig))
    (bucketId : String) : RouteResult :=
  match cfgRes with
  | Except.error e =>
    ⟨500, [("error", "Failed to list objects"), ("message", e)], []⟩
  | Except.ok cfgs =>
    match findBucket cfgs bucketId with
    | none => ⟨404, [("error", "Bucket not found")], []⟩
    | some _ => ⟨200, [], [StorageOp.listObjectsOp]⟩

/-- POST /api/buckets/[bucketId]/objects: resolve the bucket, require a
form file, and upload under the key `file.name`.  The handler takes the
multipart form's `prefixField` but — exactly as the source — never
reads it. -/
def objectsPOST (cfgRes : Except String (List BucketConfig))
    (bucketId : String) (file : Option FormFile)
    (prefixField : Option String) : RouteResult :=
  match cfgRes with
  | Except.error e =>
    ⟨500, [("error", "Failed to upload object"), ("message", e)], []⟩
  | Except.ok cfgs =>
    match findBucket cfgs bucketId with
    | none => ⟨404, [("error", "Bucket not found")], []⟩
    | some _ =>
      match file with
      | none => ⟨400, [("error", "No file provided")], []⟩
      | some f =>
        ⟨201,
          [("message", "File uploaded successfully"), ("filename", f.name)],
          [StorageOp.uploadOp f.name f.contentType]⟩

/-- JavaScript `folderName.replace(/[/\\]/g, "").trim()`: every slash
and backslash removed, then surrounding whitespace trimmed. -/
def trimChars (l : List Char) : List Char :=
  ((l.dropWhile Char.isWhitespace).reverse.dropWhile Char.isWhitespace).reverse

/-- Folder-name sanitization in POST /api/buckets/[bucketId]/folders. -/
def sanitizeFolderName (s : String) : String :=
  ⟨trimChars (s.data.filter (fun c => !(c == '/' || c == '\\')))⟩

/-- POST /api/buckets/[bucketId]/folders: resolve the bucket, validate
and sanitize the folder name, build the key
`currentPrefix + sanitized + "/"` (or `sanitized + "/"` when the prefix
is falsy), and create the marker object. -/
def foldersPOST (cfgRes : Except String (List BucketConfig))
    (bucketId : String) (folderName : Option String)
    (currentPrefix : Option String) : RouteResult :=
  match cfgRes with
  | Except.error e =>
    ⟨500, [("error", "Failed to create folder"), ("message", e)], []⟩
  | Except.ok cfgs =>
    match findBucket cfgs bucketId with
    | none => ⟨404, [("error", "Bucket not found")], []⟩
    | some _ =>
      match folderName with
      | none => ⟨400, [("error", "Folder name is required")], []⟩
      | some fn =>
        if fn = "" then ⟨400, [("error", "Folder name is required")], []⟩
        else
          let sanitized := sanitizeFolderName fn
          if sanitized = "" then
            ⟨400, [("error", "Invalid folder name")], []⟩
          else
            let folderPath :=
              match currentPrefix with
              | some p =>
                if p ≠ "" then p ++ sanitized ++ "/" else sanitized ++ "/"
              | none => sanitized ++ "/"
            ⟨201,
              [("message", "Folder created successfully"),
               ("folderPath", folderPath), ("folderName", sanitized)],
              [StorageOp.createFolderOp folderPath]⟩

/-- DELETE /api/buckets/[bucketId]/folders: resolve the bucket, require
a folder path, then run `deleteFolder` (listing pages supplied by the
oracle) and report its count. -/
def foldersDELETE (cfgRes : Except String (List BucketConfig))
    (bucketId : String) (folderPath : Option String)
    (pages : List R2.Page) : RouteResult :=
  match cfgRes with
  | Except.error e =>
    ⟨500, [("error", "Failed to delete folder"), ("message", e)], []⟩
  | Except.ok cfgs =>
    match findBucket cfgs bucketId with
    | none => ⟨404, [("error", "Bucket not found")], []⟩
    | some _ =>
      match folderPath with
      | none => ⟨400, [("error", "Folder path is required")], []⟩
      | some fp =>
        if fp = "" then ⟨400, [("error", "Folder path is required")], []⟩
        else
          let run := R2.deleteFolder fp pages
          ⟨200,
            [("message", "Folder and " ++ toString run.deletedCount ++
                " item(s) deleted successfully"),
             ("deletedCount", toString run.deletedCount),
             ("folderPath", fp)],
            run.batches.map StorageOp.deleteObjectsOp⟩

/-- GET /api/buckets/[bucketId]/objects/[key]: resolve the bucket, then
either return a presigned URL (value produced by the SDK, supplied as
`presignedUrl`) or stream the object. -/
def keyGET (cfgRes : Except String (List BucketConfig))
    (bucketId : String) (key : String) (presigned : Bool)
    (presignedUrl : String) : RouteResult :=
  match cfgRes with
  | Except.error _ => ⟨500, [("error", "Failed to get object")], []⟩
  | Except.ok cfgs =>
    match findBucket cfgs bucketId with
    | none => ⟨404, [("error", "Bucket not found")], []⟩
    | some _ =>
      if presigned then
        ⟨200, [("url", presignedUrl)], [StorageOp.presignOp key]⟩
      else
        ⟨200, [], [StorageOp.getObjectOp key]⟩

/-- DELETE /api/buckets/[bucketId]/objects/[key]: resolve the bucket,
then delete the single object. -/
def keyDELETE (cfgRes : Except String (List BucketConfig))
    (bucketId : String) (key : String) : RouteResult :=
  match cfgRes with
  | Except.error _ => ⟨500, [("error", "Failed to delete object")], []⟩
  | Except.ok cfgs =>
    match findBucket cfgs bucketId with
    | none => ⟨404, [("error", "Bucket not found")], []⟩
    | some _ =>
      ⟨200, [("message", "Successfully deleted " ++ key)],
        [StorageOp.deleteObjectOp key]⟩

/-- POST /api/objects/delete-batch: validate the keys array, then pass
the entire array to a single `deleteObjects` call — no chunking. -/
def deleteBatchPOST (keys : Option (List String)) : RouteResult :=
  match keys with
  | none => ⟨400, [("error", "Invalid or empty keys array")], []⟩
  | some ks =>
    if ks = [] then ⟨400, [("error", "Invalid or empty keys array")], []⟩
    else
      ⟨200,
        [("message", toString ks.length ++ " objects deleted successfully")],
        [StorageOp.deleteObjectsOp ks]⟩

/-- The per-bucket projection GET /api/buckets applies before replying:
only id, name, displayName and provider survive. -/
def safeBucket (c : BucketConfig) : List (String × String) :=
  [("id", c.id), ("name", c.name), ("displayName", c.displayName),
   ("provider", c.provider)]

/-- Body of a GET /api/buckets response: an array of safe bucket
objects on success, an error object on failure. -/
inductive BucketsBody where
  | ok (buckets : List (List (String × String)))
  | err (fields : List (String × String))
deriving DecidableEq, Repr

/-- GET /api/buckets: map the loaded configurations through
`safeBucket`; a loader failure becomes a 500 error body. -/
def bucketsGET (cfgRes : Except String (List BucketConfig)) :
    Nat × BucketsBody :=
  match cfgRes with
  | Except.ok bs => (200, BucketsBody.ok (bs.map safeBucket))
  | Except.error _ => (500, BucketsBody.err [("error", "Failed to list buckets")])


/-! ## Shared lemmas -/

theorem pushOpt_none {β : Type} (acc : List β) :
    R2.pushOpt acc none = acc := rfl

theorem pushOpt_some {β : Type} (acc : List β) (b : β) :
    R2.pushOpt acc (some b) = acc ++ [b] := rfl

/-- The push-style `forEach` accumulation is a `filterMap`. -/
theorem foldl_push_filterMap {α β : Type} (f : α → Option β) :
    ∀ (l : List α) (init : List β),
      l.foldl (fun acc a => R2.pushOpt acc (f a)) init =
        init ++ l.filterMap f := by
  intro l
  induction l with
  | nil => intro init; simp
  | cons a t ih =>
    intro init
    simp only [List.foldl_cons, List.filterMap_cons]
    cases h : f a with
    | none => rw [pushOpt_none, ih init]
    | some b =>
      rw [pushOpt_some, ih (init ++ [b])]
      simp

/-- Fuel-indexed helper: flattening the batches recovers the keys. -/
theorem chunks1000_flatten_fuel :
    ∀ (n : Nat) (l : List String), l.length ≤ n →
      (R2.chunks1000 l).flatten = l := by
  intro n
  induction n with
  | zero =>
    intro l h
    have hl : l = [] := List.eq_nil_of_length_eq_zero (Nat.le_zero.mp h)
    subst hl
    rw [R2.chunks1000]
    simp
  | succ n ih =>
    intro l h
    rw [R2.chunks1000]
    by_cases hl : l = []
    · simp [hl]
    · simp only [hl, if_false, List.flatten_cons]
      have hlen : 0 < l.length := List.length_pos.mpr hl
      have hdrop : (List.drop 1000 l).length ≤ n := by
        simp only [List.length_drop]
        omega
      rw [ih _ hdrop]
      exact List.take_append_drop 1000 l

/-- Flattening the batches recovers the keys. -/
theorem chunks1000_flatten (l : List String) :
    (R2.chunks1000 l).flatten = l :=
  chunks1000_flatten_fuel l.length l le_rfl

/-- Fuel-indexed helper: every batch holds at most 1000 keys. -/
theorem chunks1000_le_fuel :
    ∀ (n : Nat) (l : List String), l.length ≤ n →
      ∀ b ∈ R2.chunks1000 l, b.length ≤ 1000 := by
  intro n
  induction n with
  | zero =>
    intro l h b hb
    have hl : l = [] := List.eq_nil_of_length_eq_zero (Nat.le_zero.mp h)
    subst hl
    rw [R2.chunks1000] at hb
    simp at hb
  | succ n ih =>
    intro l h b hb
    rw [R2.chunks1000] at hb
    by_cases hl : l = []
    · simp [hl] at hb
    · simp only [hl, if_false, List.mem_cons] at hb
      rcases hb with hb | hb
      · subst hb
        simpa using List.length_take_le 1000 l
      · have hlen : 0 < l.length := List.length_pos.mpr hl
        have hdrop : (List.drop 1000 l).length ≤ n := by
          simp only [List.length_drop]
          omega
        exact ih _ hdrop b hb

/-- Every batch holds at most 1000 keys. -/
theorem chunks1000_le (l : List String) :
    ∀ b ∈ R2.chunks1000 l, b.length ≤ 1000 :=
  chunks1000_le_fuel l.length l le_rfl

/-- A nonempty key list yields at least one batch. -/
theorem chunks1000_ne_nil {l : List String} (h : l ≠ []) :
    R2.chunks1000 l ≠ [] := by
  rw [R2.chunks1000]
  simp [h]

/-- At most 1000 keys fit in one batch. -/
theorem chunks1000_small {l : List String} (h : l ≠ [])
    (hle : l.length ≤ 1000) : R2.chunks1000 l = [l] := by
  rw [R2.chunks1000]
  simp only [h, if_false]
  rw [List.take_of_length_le hle, List.drop_eq_nil_of_le hle]
  rw [R2.chunks1000]
  simp

/-- When every non-final page carries a continuation token, the listing
loop of `deleteFolder` collects the keys of every page. -/
theorem collectKeys_of_drainsAll :
    ∀ pages : List R2.Page, R2.drainsAll pages = true →
      R2.collectKeys pages = (pages.map R2.pageKeys).flatten := by
  intro pages
  induction pages with
  | nil => intro _; simp [R2.collectKeys]
  | cons p rest ih =>
    intro h
    cases rest with
    | nil =>
      simp only [R2.collectKeys, List.map_cons, List.map_nil,
        List.flatten_cons, List.flatten_nil]
      cases p.nextContinuationToken <;> simp [R2.collectKeys]
    | cons q rest2 =>
      rw [R2.drainsAll] at h
      simp only [Bool.and_eq_true] at h
      obtain ⟨htok, hrest⟩ := h
      rw [R2.collectKeys]
      rcases Option.isSome_iff_exists.mp htok with ⟨t, ht⟩
      rw [ht]
      simp only [List.map_cons, List.flatten_cons]
      rw [ih hrest]
      simp

/-- The objects list of the r2 listing is folder entries from the
common prefixes followed by file entries from the contents. -/
theorem r2_processResponse_objects (pfx : String) (now : Nat)
    (resp : ListResponse) :
    (R2.processResponse pfx now resp).objects =
      (resp.commonPrefixes.getD []).filterMap (R2.mkFolder pfx now) ++
        (resp.contents.getD []).filterMap (R2.mkFile now) := by
  simp only [R2.processResponse]
  rw [foldl_push_filterMap (R2.mkFolder pfx now) (resp.commonPrefixes.getD []) [],
    foldl_push_filterMap (R2.mkFile now) (resp.contents.getD [])]
  simp

/-- Folder pseudo-objects are marked as folders with size 0 and path
equal to the originating common prefix. -/
theorem mkFolder_spec {pfx : String} {now : Nat} {p : Option String}
    {o : R2.R2Object} (h : R2.mkFolder pfx now p = some o) :
    o.isFolder = true ∧ o.size = 0 ∧ o.path = p.getD "" := by
  unfold R2.mkFolder at h
  by_cases hname :
      jsReplaceFirst (jsReplaceFirst (p.getD "") pfx "") "/" "" = ""
  · simp [hname] at h
  · rw [if_neg hname] at h
    cases h
    exact ⟨rfl, rfl, rfl⟩

/-- File entries are never marked as folders and never carry a key that
ends with a slash. -/
theorem mkFile_spec {now : Nat} {item : SdkObject} {o : R2.R2Object}
    (h : R2.mkFile now item = some o) :
    o.isFolder = false ∧ jsEndsWithSlash o.path = false := by
  unfold R2.mkFile at h
  by_cases hslash : jsEndsWithSlash (item.key.getD "") = true
  · simp [hslash] at h
  · simp only [Bool.not_eq_true] at hslash
    simp only [hslash, Bool.false_eq_true, if_false] at h
    cases h
    exact ⟨rfl, hslash⟩

/-- The normalized folder path always ends with a slash. -/
theorem normalizePath_endsWith (s : String) :
    jsEndsWithSlash (R2.normalizePath s) = true := by
  unfold R2.normalizePath
  by_cases h : jsEndsWithSlash s = true
  · simp [h]
  · rw [if_neg h]
    unfold jsEndsWithSlash
    rw [String.data_append]
    rw [show ("/" : String).data = [Char.ofNat 47] from rfl]
    rw [List.getLast?_concat]
    simp

/-- When no configured bucket carries the requested id, the lookup
fails. -/
theorem findBucket_eq_none {cfgs : List BucketConfig} {bucketId : String}
    (h : ∀ c ∈ cfgs, c.id ≠ bucketId) :
    findBucket cfgs bucketId = none := by
  unfold findBucket
  rw [List.find?_eq_none]
  intro c hc
  simp [h c hc]

/-! ## Claim theorems -/

/-- Claim C2: deleteFolder normalizes the path to end with "/", drains
every page of the listing under that prefix via the continuation token,
deletes exactly the N keys listed and returns deletedCount = N; when
the listing yields no keys it instead deletes just the folder marker
and returns deletedCount = 1. -/
theorem c2_deleteFolder_exact (folderPath : String) (pages : List R2.Page)
    (h : R2.drainsAll pages = true) :
    (R2.deleteFolder folderPath pages).listPrefix =
      R2.normalizePath folderPath ∧
    jsEndsWithSlash (R2.deleteFolder folderPath pages).listPrefix = true ∧
    ((pages.map R2.pageKeys).flatten ≠ [] →
      (R2.deleteFolder folderPath pages).batches.flatten =
        (pages.map R2.pageKeys).flatten ∧
      (R2.deleteFolder folderPath pages).deletedCount =
        (pages.map R2.pageKeys).flatten.length) ∧
    ((pages.map R2.pageKeys).flatten = [] →
      (R2.deleteFolder folderPath pages).batches =
        [[R2.normalizePath folderPath]] ∧
      (R2.deleteFolder folderPath pages).deletedCount = 1) := by
  have hc := collectKeys_of_drainsAll pages h
  refine ⟨by simp [R2.deleteFolder], by simp [R2.deleteFolder, normalizePath_endsWith], ?_, ?_⟩
  · intro hne
    simp only [R2.deleteFolder, hc, if_neg hne]
    refine ⟨chunks1000_flatten _, ?_⟩
    simp
  · intro hemp
    simp only [R2.deleteFolder, hc, if_pos hemp]
    constructor
    · exact chunks1000_small (by simp) (by simp)
    · simp

/-- Witness for C2 at a concrete two-page listing (and, for the empty
case, an empty listing). -/
theorem c2_witness :
    ((R2.deleteFolder "f"
        [⟨some [⟨some "f/a", none, none, none⟩], some "t"⟩,
         ⟨some [⟨some "f/b", none, none, none⟩], none⟩]).batches.flatten =
      (([⟨some [⟨some "f/a", none, none, none⟩], some "t"⟩,
         ⟨some [⟨some "f/b", none, none, none⟩], none⟩] :
          List R2.Page).map R2.pageKeys).flatten) ∧
    ((R2.deleteFolder "f"
        [⟨some [⟨some "f/a", none, none, none⟩], some "t"⟩,
         ⟨some [⟨some "f/b", none, none, none⟩], none⟩]).deletedCount =
      (([⟨some [⟨some "f/a", none, none, none⟩], some "t"⟩,
         ⟨some [⟨some "f/b", none, none, none⟩], none⟩] :
          List R2.Page).map R2.pageKeys).flatten.length) ∧
    (R2.deleteFolder "g" []).batches = [[R2.normalizePath "g"]] ∧
    (R2.deleteFolder "g" []).deletedCount = 1 :=
  ⟨((c2_deleteFolder_exact "f"
      [⟨some [⟨some "f/a", none, none, none⟩], some "t"⟩,
       ⟨some [⟨some "f/b", none, none, none⟩], none⟩] (by decide)).2.2.1
      (by decide)).1,
   ((c2_deleteFolder_exact "f"
      [⟨some [⟨some "f/a", none, none, none⟩], some "t"⟩,
       ⟨some [⟨some "f/b", none, none, none⟩], none⟩] (by decide)).2.2.1
      (by decide)).2,
   ((c2_deleteFolder_exact "g" [] (by decide)).2.2.2 rfl).1,
   ((c2_deleteFolder_exact "g" [] (by decide)).2.2.2 rfl).2⟩

/-- Claim C9 (implicit): deleteFolder always reports at least one
deleted key and always issues at least one batch-delete call; when the
listing collects nothing it substitutes the normalized marker key and
reports deletedCount = 1. -/
theorem c9_deleteFolder_min_one (folderPath : String)
    (pages : List R2.Page) :
    1 ≤ (R2.deleteFolder folderPath pages).deletedCount ∧
    (R2.deleteFolder folderPath pages).batches ≠ [] ∧
    (R2.collectKeys pages = [] →
      (R2.deleteFolder folderPath pages).batches =
        [[R2.normalizePath folderPath]] ∧
      (R2.deleteFolder folderPath pages).deletedCount = 1) := by
  by_cases hcol : R2.collectKeys pages = []
  · simp only [R2.deleteFolder, hcol, if_pos rfl]
    refine ⟨by simp, ?_, fun _ => ⟨chunks1000_small (by simp) (by simp), by simp⟩⟩
    rw [chunks1000_small (by simp) (by simp)]
    simp
  · simp only [R2.deleteFolder, if_neg hcol]
    refine ⟨?_, chunks1000_ne_nil hcol, fun hc => absurd hc hcol⟩
    have := List.length_pos.mpr hcol
    omega

/-- Witness for C9 at an empty listing. -/
theorem c9_witness :
    1 ≤ (R2.deleteFolder "g" []).deletedCount ∧
    (R2.deleteFolder "g" []).batches ≠ [] ∧
    (R2.deleteFolder "g" []).batches = [[R2.normalizePath "g"]] ∧
    (R2.deleteFolder "g" []).deletedCount = 1 :=
  ⟨(c9_deleteFolder_min_one "g" []).1,
   (c9_deleteFolder_min_one "g" []).2.1,
   ((c9_deleteFolder_min_one "g" []).2.2 rfl).1,
   ((c9_deleteFolder_min_one "g" []).2.2 rfl).2⟩

/-- A nonempty keys array reaches the single batch-delete call of the
delete-batch endpoint unchanged. -/
theorem deleteBatchPOST_some {ks : List String} (hk : ks ≠ []) :
    deleteBatchPOST (some ks) =
      ⟨200, [("message", toString ks.length ++ " objects deleted successfully")],
        [StorageOp.deleteObjectsOp ks]⟩ := by
  simp [deleteBatchPOST, hk]

/-- Claim C3, counterexample: the delete-batch endpoint given 1001 keys
issues a single provider call carrying all 1001 keys, so the keys are
not split into calls of at most 1000. -/
theorem c3_counterexample :
    (deleteBatchPOST (some (List.replicate 1001 "k"))).ops =
      [StorageOp.deleteObjectsOp (List.replicate 1001 "k")] ∧
    1000 < (List.replicate 1001 "k").length := by
  have hne : List.replicate 1001 "k" ≠ [] := by
    intro h
    have h2 := congrArg List.length h
    rw [List.length_replicate] at h2
    simp at h2
  constructor
  · rw [deleteBatchPOST_some hne]
  · rw [List.length_replicate]
    omega

/-- Claim C3, amended: deleteFolder splits its deletions into provider
calls of at most 1000 keys each, but the delete-batch endpoint performs
no chunking: it passes the entire keys array to a single deleteObjects
call. -/
theorem c3_chunking_amended (folderPath : String) (pages : List R2.Page)
    (keys : List String) (hk : keys ≠ []) :
    (∀ b ∈ (R2.deleteFolder folderPath pages).batches, b.length ≤ 1000) ∧
    (deleteBatchPOST (some keys)).ops =
      [StorageOp.deleteObjectsOp keys] := by
  constructor
  · intro b hb
    simp only [R2.deleteFolder] at hb
    exact chunks1000_le _ b hb
  · rw [deleteBatchPOST_some hk]

/-- Witness for C3 (amended): a concrete batch of the folder delete is
within the limit, and a concrete keys array reaches the endpoint as one
call. -/
theorem c3_witness :
    (["f/"] : List String).length ≤ 1000 ∧
    (deleteBatchPOST (some ["a"])).ops =
      [StorageOp.deleteObjectsOp ["a"]] := by
  have h := c3_chunking_amended "f" [] ["a"] (by decide)
  refine ⟨?_, h.2⟩
  apply h.1
  have hb : (R2.deleteFolder "f" []).batches = [["f/"]] := by
    simp only [R2.deleteFolder]
    rw [show R2.collectKeys [] = [] from rfl]
    simp only [if_pos rfl]
    rw [show R2.normalizePath "f" = "f/" by decide]
    rw [chunks1000_small (by decide) (by decide)]
    simp
  rw [hb]
  simp

/-- Claim C1, counterexample: on one and the same provider response
(one common prefix "x/", one content entry whose key is the folder
marker "docs/") the r2 adapter produces a single folder object named
"x" while the s3 adapter produces a single file object named "docs/";
moreover the s3 adapter sends no delimiter.  The two adapters are not
behaviourally equivalent on equal provider responses and arguments. -/
theorem c1_counterexample :
    ((R2.listObjects ⟨"b1", "bkt", "B", "r2", none, some "e", none, "ak", "sk"⟩
        100 none ""
        ⟨some [some "x/"], some [⟨some "docs/", none, none, none⟩], none,
          none, none⟩ 0).2.objects.map (fun o => o.name)) = ["x"] ∧
    ((S3.listObjects ⟨"b1", "bkt", "B", "s3", none, none, none, "ak", "sk"⟩
        100 none
        ⟨some [some "x/"], some [⟨some "docs/", none, none, none⟩], none,
          none, none⟩ 0).2.objects.map (fun o => o.name)) = ["docs/"] ∧
    (("x" : String) ≠ "docs/") ∧
    (S3.listObjects ⟨"b1", "bkt", "B", "s3", none, none, none, "ak", "sk"⟩
        100 none
        ⟨some [some "x/"], some [⟨some "docs/", none, none, none⟩], none,
          none, none⟩ 0).1.delimiter = none :=
  ⟨by decide, by decide, by decide, rfl⟩

/-- Claim C1, amended: only the r2 adapter issues a delimiter-"/"
listing scoped to the given prefix and converts common prefixes into
folder pseudo-objects and contents into file objects with marker keys
skipped; the s3 adapter issues a listing with no delimiter and no
prefix and converts every content entry — folder markers included —
into a file object, so the two adapters are not behaviourally
equivalent. -/
theorem c1_adapters_amended (configR configS : BucketConfig)
    (maxKeys : Nat) (tok : Option String) (pfx : String)
    (resp : ListResponse) (now : Nat) :
    (R2.listObjects configR maxKeys tok pfx resp now).1 =
      ⟨configR.name, some maxKeys, tok, some pfx, some "/"⟩ ∧
    (R2.listObjects configR maxKeys tok pfx resp now).2.objects =
      (resp.commonPrefixes.getD []).filterMap (R2.mkFolder pfx now) ++
        (resp.contents.getD []).filterMap (R2.mkFile now) ∧
    (S3.listObjects configS maxKeys tok resp now).1 =
      ⟨configS.name, some maxKeys, tok, none, none⟩ ∧
    (∀ items, resp.contents = some items →
      (S3.listObjects configS maxKeys tok resp now).2.objects =
        items.map (S3.mkFile now)) := by
  refine ⟨rfl, r2_processResponse_objects pfx now resp, rfl, ?_⟩
  intro items hi
  simp [S3.listObjects, S3.processResponse, hi]

/-- Witness for C1 (amended): the s3 adapter maps the folder-marker
content entry of a concrete response to a file object. -/
theorem c1_witness :
    (S3.listObjects ⟨"b1", "bkt", "B", "s3", none, none, none, "ak", "sk"⟩
        100 none
        ⟨none, some [⟨some "docs/", none, none, none⟩], none, none, none⟩
        0).2.objects =
      [⟨some "docs/", none, none, none⟩].map (S3.mkFile 0) :=
  (c1_adapters_amended
    ⟨"b1", "bkt", "B", "r2", none, some "e", none, "ak", "sk"⟩
    ⟨"b1", "bkt", "B", "s3", none, none, none, "ak", "sk"⟩ 100 none ""
    ⟨none, some [⟨some "docs/", none, none, none⟩], none, none, none⟩
    0).2.2.2 [⟨some "docs/", none, none, none⟩] rfl

/-- Claim C4, counterexample: for the response whose single distinct
common prefix is "a//" under listing prefix "a/", the derived display
name is empty and the adapter produces no folder pseudo-object at all
— not exactly one per distinct common prefix. -/
theorem c4_counterexample :
    ((R2.processResponse "a/" 0
        ⟨some [some "a//"], none, none, none, none⟩).objects.filter
        (fun o => o.isFolder)).length = 0 ∧
    ((⟨some [some "a//"], none, none, none, none⟩ :
        ListResponse).commonPrefixes.getD []).length = 1 :=
  ⟨by decide, by decide⟩

/-- Claim C4, amended: the folder pseudo-objects of a listing are
exactly one per common-prefix entry whose derived display name is
nonempty (entries deriving an empty name are skipped), each with
isFolder = true, size = 0 and path equal to the common prefix; and no
file object in the result has a key ending with "/". -/
theorem c4_folders_amended (pfx : String) (now : Nat)
    (resp : ListResponse) :
    (R2.processResponse pfx now resp).objects.filter
        (fun o => o.isFolder) =
      (resp.commonPrefixes.getD []).filterMap (R2.mkFolder pfx now) ∧
    (∀ p o, R2.mkFolder pfx now p = some o →
      o.isFolder = true ∧ o.size = 0 ∧ o.path = p.getD "") ∧
    (∀ o ∈ (R2.processResponse pfx now resp).objects, o.isFolder = false →
      jsEndsWithSlash o.path = false) := by
  have hobj := r2_processResponse_objects pfx now resp
  refine ⟨?_, fun p o h => mkFolder_spec h, ?_⟩
  · rw [hobj, List.filter_append]
    have h1 : ((resp.commonPrefixes.getD []).filterMap
        (R2.mkFolder pfx now)).filter (fun o => o.isFolder) =
        (resp.commonPrefixes.getD []).filterMap (R2.mkFolder pfx now) := by
      apply List.filter_eq_self.mpr
      intro o ho
      rcases List.mem_filterMap.mp ho with ⟨p, _, hp⟩
      simp [(mkFolder_spec hp).1]
    have h2 : ((resp.contents.getD []).filterMap
        (R2.mkFile now)).filter (fun o => o.isFolder) = [] := by
      apply List.filter_eq_nil_iff.mpr
      intro o ho
      rcases List.mem_filterMap.mp ho with ⟨item, _, hi⟩
      simp [(mkFile_spec hi).1]
    rw [h1, h2, List.append_nil]
  · intro o ho hnf
    rw [hobj] at ho
    rcases List.mem_append.mp ho with hin | hin
    · rcases List.mem_filterMap.mp hin with ⟨p, _, hp⟩
      rw [(mkFolder_spec hp).1] at hnf
      simp at hnf
    · rcases List.mem_filterMap.mp hin with ⟨item, _, hi⟩
      exact (mkFile_spec hi).2

/-- Witness for C4 (amended): a concrete common prefix yields exactly
the expected folder pseudo-object. -/
theorem c4_witness :
    ((⟨"folder-x/", "x", "x/", "folder", 0, 7, none, true⟩ :
        R2.R2Object).isFolder = true ∧
      (⟨"folder-x/", "x", "x/", "folder", 0, 7, none, true⟩ :
        R2.R2Object).size = 0 ∧
      (⟨"folder-x/", "x", "x/", "folder", 0, 7, none, true⟩ :
        R2.R2Object).path = (some "x/").getD "") :=
  (c4_folders_amended "" 7 ⟨some [some "x/"], none, none, none, none⟩).2.1
    (some "x/") ⟨"folder-x/", "x", "x/", "folder", 0, 7, none, true⟩
    (by decide)

/-- Claim C5: for every bucket-scoped route, a request whose bucketId
matches no configured bucket yields HTTP 404 with no storage operation
performed. -/
theorem c5_unknown_bucket_404 (cfgs : List BucketConfig)
    (bucketId : String) (h : ∀ c ∈ cfgs, c.id ≠ bucketId)
    (file : Option FormFile)
    (pfxField folderName currentPrefix folderPath : Option String)
    (pages : List R2.Page) (key : String) (presigned : Bool)
    (url : String) :
    objectsGET (Except.ok cfgs) bucketId =
      ⟨404, [("error", "Bucket not found")], []⟩ ∧
    objectsPOST (Except.ok cfgs) bucketId file pfxField =
      ⟨404, [("error", "Bucket not found")], []⟩ ∧
    foldersPOST (Except.ok cfgs) bucketId folderName currentPrefix =
      ⟨404, [("error", "Bucket not found")], []⟩ ∧
    foldersDELETE (Except.ok cfgs) bucketId folderPath pages =
      ⟨404, [("error", "Bucket not found")], []⟩ ∧
    keyGET (Except.ok cfgs) bucketId key presigned url =
      ⟨404, [("error", "Bucket not found")], []⟩ ∧
    keyDELETE (Except.ok cfgs) bucketId key =
      ⟨404, [("error", "Bucket not found")], []⟩ := by
  have hf := findBucket_eq_none h
  exact ⟨by simp [objectsGET, hf], by simp [objectsPOST, hf],
    by simp [foldersPOST, hf], by simp [foldersDELETE, hf],
    by simp [keyGET, hf], by simp [keyDELETE, hf]⟩

/-- Witness for C5: one configured bucket "a", request for bucket
"b". -/
theorem c5_witness :
    (objectsGET (Except.ok
        [⟨"a", "bkt", "B", "r2", none, some "e", none, "ak", "sk"⟩]) "b" =
      ⟨404, [("error", "Bucket not found")], []⟩ ∧
    objectsPOST (Except.ok
        [⟨"a", "bkt", "B", "r2", none, some "e", none, "ak", "sk"⟩]) "b"
        none none =
      ⟨404, [("error", "Bucket not found")], []⟩ ∧
    foldersPOST (Except.ok
        [⟨"a", "bkt", "B", "r2", none, some "e", none, "ak", "sk"⟩]) "b"
        none none =
      ⟨404, [("error", "Bucket not found")], []⟩ ∧
    foldersDELETE (Except.ok
        [⟨"a", "bkt", "B", "r2", none, some "e", none, "ak", "sk"⟩]) "b"
        none [] =
      ⟨404, [("error", "Bucket not found")], []⟩ ∧
    keyGET (Except.ok
        [⟨"a", "bkt", "B", "r2", none, some "e", none, "ak", "sk"⟩]) "b"
        "k" false "" =
      ⟨404, [("error", "Bucket not found")], []⟩ ∧
    keyDELETE (Except.ok
        [⟨"a", "bkt", "B", "r2", none, some "e", none, "ak", "sk"⟩]) "b"
        "k" =
      ⟨404, [("error", "Bucket not found")], []⟩) :=
  c5_unknown_bucket_404 _ "b" (by decide) none none none none none [] "k"
    false ""

/-- `safeBucket` factors through the four client-visible fields. -/
theorem safeBucket_factor (cfgs : List BucketConfig) :
    cfgs.map safeBucket =
      (cfgs.map (fun c => (c.id, c.name, c.displayName, c.provider))).map
        (fun q => [("id", q.1), ("name", q.2.1), ("displayName", q.2.2.1),
          ("provider", q.2.2.2)]) := by
  rw [List.map_map]
  rfl

/-- Claim C6: GET /api/buckets exposes exactly the fields id, name,
displayName and provider of each configured bucket, and its response
is unchanged under any modification of the remaining (credential)
fields. -/
theorem c6_safe_bucket_fields (cfgs cfgs2 : List BucketConfig)
    (h : cfgs.map (fun c => (c.id, c.name, c.displayName, c.provider)) =
      cfgs2.map (fun c => (c.id, c.name, c.displayName, c.provider))) :
    bucketsGET (Except.ok cfgs) =
      (200, BucketsBody.ok (cfgs.map safeBucket)) ∧
    (∀ flds ∈ cfgs.map safeBucket,
      flds.map Prod.fst = ["id", "name", "displayName", "provider"]) ∧
    bucketsGET (Except.ok cfgs) = bucketsGET (Except.ok cfgs2) := by
  refine ⟨rfl, ?_, ?_⟩
  · intro flds hf
    rcases List.mem_map.mp hf with ⟨c, _, hc⟩
    rw [← hc]
    rfl
  · simp only [bucketsGET]
    rw [safeBucket_factor, safeBucket_factor, h]

/-- Witness for C6: two configurations equal on the visible quadruple
but with different credentials and endpoints give identical
responses. -/
theorem c6_witness :
    bucketsGET (Except.ok
        [(⟨"a", "bkt", "B", "r2", none, some "e1", none, "AK1", "SK1"⟩ :
          BucketConfig)]) =
      bucketsGET (Except.ok
        [(⟨"a", "bkt", "B", "r2", none, some "e2", some "pub", "AK2",
          "SK2"⟩ : BucketConfig)]) :=
  (c6_safe_bucket_fields
    [⟨"a", "bkt", "B", "r2", none, some "e1", none, "AK1", "SK1"⟩]
    [⟨"a", "bkt", "B", "r2", none, some "e2", some "pub", "AK2", "SK2"⟩]
    (by decide)).2.2

/-- The validation loop throws when any bucket in the list is
invalid. -/
theorem validateBuckets_error {bs : List BucketConfig}
    {b : BucketConfig} (hmem : b ∈ bs)
    (hbad : missingRequired b = true ∨ r2MissingEndpoint b = true) :
    ∃ msg, validateBuckets bs = Except.error msg := by
  induction bs with
  | nil => cases hmem
  | cons hd tl ih =>
    by_cases h1 : missingRequired hd = true
    · exact ⟨"Invalid bucket configuration. Missing required fields: id, name, provider, accessKeyId, secretAccessKey",
        by simp [validateBuckets, h1]⟩
    · by_cases h2 : r2MissingEndpoint hd = true
      · exact ⟨"R2 bucket " ++ hd.name ++ " is missing required endpoint field",
          by simp [validateBuckets, h1, h2]⟩
      · rcases List.mem_cons.mp hmem with rfl | hmem2
        · rcases hbad with hb | hb
          · exact absurd hb h1
          · exact absurd hb h2
        · rcases ih hmem2 with ⟨m, hm⟩
          exact ⟨m, by simp [validateBuckets, h1, h2, hm]⟩

/-- Claim C7: the configuration loader throws (never returns a partial
list) whenever any configured bucket misses a required field — in
particular an r2 bucket without endpoint — and the error propagates as
a 500 to the request that needed the configuration, with no storage
operation performed and no retry. -/
theorem c7_config_error_fatal (bs : List BucketConfig)
    (b : BucketConfig) (hmem : b ∈ bs)
    (hbad : missingRequired b = true ∨ r2MissingEndpoint b = true) :
    (∃ msg, loadBucketConfigs (some ⟨some bs⟩) = Except.error msg) ∧
    (∀ l, loadBucketConfigs (some ⟨some bs⟩) ≠ Except.ok l) ∧
    (∀ msg bucketId folderName currentPrefix,
      foldersPOST (Except.error msg) bucketId folderName currentPrefix =
        ⟨500, [("error", "Failed to create folder"), ("message", msg)],
          []⟩) ∧
    (∀ c : BucketConfig, r2MissingEndpoint c = true →
      R2.createR2Client c = Except.error
        ("R2 bucket " ++ c.name ++ " is missing endpoint configuration")) := by
  rcases validateBuckets_error hmem hbad with ⟨m, hm⟩
  refine ⟨⟨m, by simp [loadBucketConfigs, hm]⟩, ?_,
    fun msg bucketId fn cp => rfl, ?_⟩
  · intro l hl
    simp [loadBucketConfigs, hm] at hl
  · intro c hc
    unfold r2MissingEndpoint at hc
    simp only [Bool.and_eq_true, decide_eq_true_eq] at hc
    unfold R2.createR2Client
    rw [if_pos hc.2]

/-- Witness for C7: a single r2 bucket with no endpoint. -/
theorem c7_witness :
    ((⟨"a", "bkt", "B", "r2", none, none, none, "ak", "sk"⟩ :
        BucketConfig) ∈
      [(⟨"a", "bkt", "B", "r2", none, none, none, "ak", "sk"⟩ :
        BucketConfig)]) ∧
    (∃ msg, loadBucketConfigs
        (some ⟨some [⟨"a", "bkt", "B", "r2", none, none, none, "ak",
          "sk"⟩]⟩) = Except.error msg) ∧
    R2.createR2Client
        ⟨"a", "bkt", "B", "r2", none, none, none, "ak", "sk"⟩ =
      Except.error "R2 bucket bkt is missing endpoint configuration" := by
  have h := c7_config_error_fatal
    [⟨"a", "bkt", "B", "r2", none, none, none, "ak", "sk"⟩]
    ⟨"a", "bkt", "B", "r2", none, none, none, "ak", "sk"⟩
    (by decide) (Or.inr (by decide))
  exact ⟨by decide, h.1, h.2.2.2 _ (by decide)⟩

/-- Claim C8, counterexample: a successful upload with form fields
file = "a.txt" and prefix = "docs/" returns 201 whose body holds only
message and filename — no key field — and the stored key is "a.txt",
not "docs/a.txt": the prefix is ignored. -/
theorem c8_counterexample :
    (objectsPOST (Except.ok
        [⟨"b1", "bkt", "B", "r2", none, some "e", none, "ak", "sk"⟩])
        "b1" (some ⟨"a.txt", 3, "text/plain"⟩) (some "docs/")).status =
      201 ∧
    (objectsPOST (Except.ok
        [⟨"b1", "bkt", "B", "r2", none, some "e", none, "ak", "sk"⟩])
        "b1" (some ⟨"a.txt", 3, "text/plain"⟩)
        (some "docs/")).body.map Prod.fst = ["message", "filename"] ∧
    "key" ∉ (objectsPOST (Except.ok
        [⟨"b1", "bkt", "B", "r2", none, some "e", none, "ak", "sk"⟩])
        "b1" (some ⟨"a.txt", 3, "text/plain"⟩)
        (some "docs/")).body.map Prod.fst ∧
    (objectsPOST (Except.ok
        [⟨"b1", "bkt", "B", "r2", none, some "e", none, "ak", "sk"⟩])
        "b1" (some ⟨"a.txt", 3, "text/plain"⟩) (some "docs/")).ops =
      [StorageOp.uploadOp "a.txt" "text/plain"] ∧
    StorageOp.uploadOp "docs/a.txt" "text/plain" ∉
      (objectsPOST (Except.ok
        [⟨"b1", "bkt", "B", "r2", none, some "e", none, "ak", "sk"⟩])
        "b1" (some ⟨"a.txt", 3, "text/plain"⟩) (some "docs/")).ops :=
  ⟨by decide, by decide, by decide, by decide, by decide⟩

/-- Claim C8, amended: a successful multipart upload returns 201 with a
JSON body containing exactly message and filename (no key field); the
prefix form field is never read — the response and the stored key are
independent of it — and the stored key equals the client-supplied file
name. -/
theorem c8_upload_amended (cfgs : List BucketConfig) (bucketId : String)
    (cfg : BucketConfig) (hfind : findBucket cfgs bucketId = some cfg)
    (f : FormFile) (pfxField pfxField2 : Option String) :
    objectsPOST (Except.ok cfgs) bucketId (some f) pfxField =
      ⟨201, [("message", "File uploaded successfully"),
        ("filename", f.name)],
        [StorageOp.uploadOp f.name f.contentType]⟩ ∧
    objectsPOST (Except.ok cfgs) bucketId (some f) pfxField =
      objectsPOST (Except.ok cfgs) bucketId (some f) pfxField2 := by
  constructor <;> simp [objectsPOST, hfind]

/-- Witness for C8 (amended) at a concrete bucket and file. -/
theorem c8_witness :
    objectsPOST (Except.ok
        [(⟨"b1", "bkt", "B", "r2", none, some "e", none, "ak", "sk"⟩ :
          BucketConfig)]) "b1" (some ⟨"a.txt", 3, "text/plain"⟩)
        (some "docs/") =
      ⟨201, [("message", "File uploaded successfully"),
        ("filename", "a.txt")],
        [StorageOp.uploadOp "a.txt" "text/plain"]⟩ :=
  (c8_upload_amended
    [⟨"b1", "bkt", "B", "r2", none, some "e", none, "ak", "sk"⟩] "b1"
    ⟨"b1", "bkt", "B", "r2", none, some "e", none, "ak", "sk"⟩ (by decide)
    ⟨"a.txt", 3, "text/plain"⟩ (some "docs/") none).1

/-- Characters surviving `trimChars` come from the original list. -/
theorem trimChars_subset {l : List Char} {c : Char}
    (h : c ∈ trimChars l) : c ∈ l := by
  unfold trimChars at h
  rw [List.mem_reverse] at h
  have h2 := (List.dropWhile_sublist _).subset h
  rw [List.mem_reverse] at h2
  exact (List.dropWhile_sublist _).subset h2

/-- The sanitized folder name contains no slash and no backslash. -/
theorem sanitizeFolderName_no_slash (s : String) :
    ∀ c ∈ (sanitizeFolderName s).data, c ≠ '/' ∧ c ≠ '\\' := by
  intro c hc
  have hc2 : c ∈ trimChars
      (s.data.filter (fun c => !(c == '/' || c == '\\'))) := hc
  have hc3 := trimChars_subset hc2
  have hp := List.of_mem_filter hc3
  simp only [Bool.not_eq_true', Bool.or_eq_false_iff, beq_eq_false_iff_ne,
    ne_eq] at hp
  exact hp

/-- Claim C10 (implicit): a created folder key is always
currentPrefix ++ sanitizedName ++ "/", where the sanitized name has
every slash and backslash removed and is then trimmed; when the
sanitized name is empty the route answers 400 and performs no storage
operation, so a created folder is always a direct child of
currentPrefix. -/
theorem c10_create_folder_scoped (cfgs : List BucketConfig)
    (bucketId : String) (cfg : BucketConfig)
    (hfind : findBucket cfgs bucketId = some cfg) (fn : String)
    (hfn : fn ≠ "") (currentPrefix : Option String) :
    (sanitizeFolderName fn = "" →
      foldersPOST (Except.ok cfgs) bucketId (some fn) currentPrefix =
        ⟨400, [("error", "Invalid folder name")], []⟩) ∧
    (sanitizeFolderName fn ≠ "" →
      foldersPOST (Except.ok cfgs) bucketId (some fn) currentPrefix =
        ⟨201, [("message", "Folder created successfully"),
          ("folderPath",
            currentPrefix.getD "" ++ sanitizeFolderName fn ++ "/"),
          ("folderName", sanitizeFolderName fn)],
          [StorageOp.createFolderOp
            (currentPrefix.getD "" ++ sanitizeFolderName fn ++ "/")]⟩) ∧
    (∀ c ∈ (sanitizeFolderName fn).data, c ≠ '/' ∧ c ≠ '\\') := by
  refine ⟨?_, ?_, sanitizeFolderName_no_slash fn⟩
  · intro hs
    simp [foldersPOST, hfind, hfn, hs]
  · intro hs
    cases currentPrefix with
    | none =>
      simp [foldersPOST, hfind, hfn, hs, String.empty_append]
    | some p =>
      by_cases hp : p = ""
      · subst hp
        simp [foldersPOST, hfind, hfn, hs, String.empty_append]
      · simp [foldersPOST, hfind, hfn, hs, hp]

/-- Witness for C10: creating "new/folder" under prefix "a/" stores the
marker "a/newfolder/". -/
theorem c10_witness :
    foldersPOST (Except.ok
        [(⟨"b1", "bkt", "B", "r2", none, some "e", none, "ak", "sk"⟩ :
          BucketConfig)]) "b1" (some "new/folder") (some "a/") =
      ⟨201, [("message", "Folder created successfully"),
        ("folderPath",
          (some "a/").getD "" ++ sanitizeFolderName "new/folder" ++ "/"),
        ("folderName", sanitizeFolderName "new/folder")],
        [StorageOp.createFolderOp
          ((some "a/").getD "" ++ sanitizeFolderName "new/folder" ++
            "/")]⟩ :=
  (c10_create_folder_scoped
    [⟨"b1", "bkt", "B", "r2", none, some "e", none, "ak", "sk"⟩] "b1"
    ⟨"b1", "bkt", "B", "r2", none, some "e", none, "ak", "sk"⟩ (by decide)
    "new/folder" (by decide) (some "a/")).2.1 (by decide)

